import Mathlib

/-!
# Verification of the TANO shipment-simulation core

A shallow embedding of the extraction / matching / narrative-building pipeline
of `src/app/page.tsx` (the "shipment simulation" persona), together with the
schedule-confirmation handlers of the chat view, and proofs of the frozen
claims about it.

Strings are modelled as Lean `String` (lists of Unicode scalar values), which
matches JavaScript strings on every character appearing in the fixtures and
patterns.  JavaScript regular expressions are modelled by hand-rolled
deterministic matchers that reproduce the leftmost-match, greedy-with-
backtracking semantics of the three patterns that occur in the source; the
analysis of each pattern is documented at its definition.
-/

/-! ## Character-level utilities (JavaScript string primitives) -/

/-- The JavaScript whitespace set: the characters matched by `\s`, and removed by
`String.prototype.trim` (WhiteSpace ∪ LineTerminator).  U+2000–U+200A are listed
individually. -/
def jsWsChars : List Char :=
  [' ', '\t', '\n', '\r', '\x0b', '\x0c', '\u00a0', '\u1680',
   '\u2000', '\u2001', '\u2002', '\u2003', '\u2004', '\u2005', '\u2006',
   '\u2007', '\u2008', '\u2009', '\u200a',
   '\u2028', '\u2029', '\u202f', '\u205f', '\u3000', '\ufeff']

/-- Test that `c` is JavaScript whitespace. -/
def isJsWs (c : Char) : Bool := jsWsChars.contains c

/-- Test that `c` is an ASCII digit — what `\d` matches in a non-Unicode JavaScript regex. -/
def isDigit (c : Char) : Bool := '0' ≤ c && c ≤ '9'

/-- Model of `String.prototype.trim` on a character list: drop JavaScript whitespace from
both ends. -/
def jsTrimList (l : List Char) : List Char :=
  ((l.dropWhile isJsWs).reverse.dropWhile isJsWs).reverse

/-- Model of `String.prototype.trim`. -/
def jsTrim (s : String) : String := ⟨jsTrimList s.data⟩

/-- Model of `String.prototype.toUpperCase`, restricted to the ASCII mapping.  The fixture
keys consist of `A`–`Z` and digits only, and no character outside ASCII has a
JavaScript uppercase mapping landing in that alphabet, so on every input the
substring tests below agree with the full Unicode mapping. -/
def jsToUpperChar (c : Char) : Char :=
  if 'a' ≤ c && c ≤ 'z' then Char.ofNat (c.toNat - 32) else c

/-- Model of `String.prototype.toUpperCase` (ASCII mapping, see `jsToUpperChar`). -/
def jsToUpper (s : String) : String := ⟨s.data.map jsToUpperChar⟩

/-- Test that `needle` is a leading segment of `hay`. -/
def startsWithL : List Char → List Char → Bool
  | [], _ => true
  | _ :: _, [] => false
  | a :: as, b :: bs => a == b && startsWithL as bs

/-- Model of `String.prototype.includes`: `needle` occurs contiguously inside `hay`. -/
def containsSub (hay needle : List Char) : Bool :=
  match hay with
  | [] => needle.isEmpty
  | _ :: t => startsWithL needle hay || containsSub t needle

/-- Model of `String.prototype.split(/\r?\n/)`: cut at every `\n`, consuming an
immediately preceding `\r`; a lone `\r` is not a separator. -/
def splitLines : List Char → List (List Char)
  | [] => [[]]
  | '\r' :: '\n' :: t => [] :: splitLines t
  | '\n' :: t => [] :: splitLines t
  | c :: t =>
    match splitLines t with
    | [] => [[c]]
    | h :: rest => (c :: h) :: rest

/-- Model of `Number.parseInt(ds, 10)` on a non-empty list of ASCII digits (the only way
the source calls it). -/
def digitsToInt (ds : List Char) : Int :=
  (ds.foldl (fun n c => n * 10 + (c.toNat - 48)) 0 : Nat)

/-- Insert a `,` after every third character of a reversed digit list — the
grouping step of `Intl.NumberFormat("ja-JP")`. -/
def groupRev : List Char → List Char
  | a :: b :: c :: d :: rest => a :: b :: c :: ',' :: groupRev (d :: rest)
  | l => l

/-- Model of `formatNumber` (src/app/page.tsx line 866):
`new Intl.NumberFormat("ja-JP").format(value)` for integer values — decimal
digits with thousands separators, with a leading `-` for negative values. -/
def formatNumber (value : Int) : String :=
  let digits := (toString value.natAbs).data
  let grouped := (groupRev digits.reverse).reverse
  if value < 0 then ⟨'-' :: grouped⟩ else ⟨grouped⟩

/-! ## Data model (src/app/page.tsx lines 40-97)

The TypeScript string-literal union types (`priority`, `severity`, `status`,
`Role`) are modelled as `String`, their values being exactly the literals the
source writes. -/

structure ConceptLT where
  variant : String
  days : Nat
  reason : String
deriving DecidableEq, Repr

structure Inventory where
  sku : String
  available : Nat
  reserved : Nat
  comment : String
deriving DecidableEq, Repr

structure ProductionLoad where
  line : String
  utilization : Nat
  severity : String
  comment : String
deriving DecidableEq, Repr

structure ReferenceSnapshot where
  conceptLT : ConceptLT
  inventory : Inventory
  productionLoad : ProductionLoad
deriving DecidableEq, Repr

structure SimulationPlan where
  label : String
  shipDate : String
  leadTimeDays : Nat
  allocation : String
  manufacturingWindow : String
  risk : String
  note : String
deriving DecidableEq, Repr

structure SimilarCase where
  id : String
  title : String
  period : String
  quantity : Nat
  approach : String
  outcome : String
deriving DecidableEq, Repr

structure ScheduleBlock where
  id : String
  timeFrame : String
  focus : String
  owner : String
  status : String
  note : String
deriving DecidableEq, Repr

/-- A simulation profile (src/app/page.tsx lines 90-97).  The `"3CB5"` object
literal omits the `history` and `schedule` properties required by the
TypeScript interface, so at runtime they are `undefined`; the two fields are
therefore modelled as `Option`, with `none` for the absent property. -/
structure SimulationProfile where
  defaultQuantity : Nat
  priority : String
  references : ReferenceSnapshot
  plans : List SimulationPlan
  history : Option (List SimilarCase) := none
  schedule : Option (List ScheduleBlock) := none
deriving DecidableEq, Repr

/-- A JavaScript object literal may assign the same property several times; the
object keeps the value of the last assignment. -/
def lastProp {α : Type} (assignments : List α) (dflt : α) : α :=
  assignments.getLastD dflt

def REFERENCE_NOTE : String :=
  "コンセプトLTは量産立ち上がり時に確定したリードタイム指標です。製造負荷はロット計画から自動算出されます。"
/-! ### Fixture store: `SIMULATION_LIBRARY` (src/app/page.tsx lines 102-799) -/

/-- The earlier `history:` assignment inside the `"4CBTY2"` object literal. -/
def history4CBTY2First : List SimilarCase := [
    {
      id := "H-4CBTY2-01",
      title := "4CBTY2 10台 / 春季即応",
      period := "2025年4月",
      quantity := 10,
      approach := "在庫7台 + 夜勤で3台増産して前倒し",
      outcome := "LTを2日短縮。夜勤コスト4%増で許容範囲。"
    },
    {
      id := "H-4CBTY2-02",
      title := "4CBTY2 6台 / 緊急保守案件",
      period := "2024年12月",
      quantity := 6,
      approach := "在庫全振り＋翌週の補充ロットを先行手配",
      outcome := "在庫リスク最小で顧客SLAを維持。"
    }
]

/-- The earlier `schedule:` assignment inside the `"4CBTY2"` object literal. -/
def schedule4CBTY2First : List ScheduleBlock := [
    {
      id := "S-4CBTY2-01",
      timeFrame := "11/11 夜",
      focus := "筐体組立 2台増産",
      owner := "L2夜勤リーダー",
      status := "調整中",
      note := "人員確保済み。QAリソースを追加割当。"
    },
    {
      id := "S-4CBTY2-02",
      timeFrame := "11/13 午前",
      focus := "最終QA・外観検査",
      owner := "品質保証チーム",
      status := "確定",
      note := "チェックリストは最新版#2025-10を使用。"
    },
    {
      id := "S-4CBTY2-03",
      timeFrame := "11/14 夕方",
      focus := "梱包・出荷便手配",
      owner := "SCMオペレーション",
      status := "要確認",
      note := "輸送会社と前日17時までに集荷確定が必要。"
    }
]

/-- The later `history:` assignment inside the `"4CBTY2"` object literal. -/
def history4CBTY2Second : List SimilarCase := [
    {
      id := "H-3CB5-01",
      title := "3CB5 7台 / メンテ補充",
      period := "2025年3月",
      quantity := 7,
      approach := "在庫全引当＋翌週補充で対応",
      outcome := "保守窓口への連絡を前倒しし顧客満足度維持。"
    },
    {
      id := "H-3CB5-02",
      title := "3CB5 4台 / 部材遅延時",
      period := "2024年6月",
      quantity := 4,
      approach := "代替ロットを振替えQAを追加で1日実施",
      outcome := "品質リスクゼロ、コスト増2%で抑制。"
    }
]

/-- The later `schedule:` assignment inside the `"4CBTY2"` object literal. -/
def schedule4CBTY2Second : List ScheduleBlock := [
    {
      id := "S-3CB5-01",
      timeFrame := "11/11 午前",
      focus := "在庫即時引当",
      owner := "需給オペレーション",
      status := "確定",
      note := "システム登録済み。補充ロットは11/18入庫。"
    },
    {
      id := "S-3CB5-02",
      timeFrame := "11/12 午前",
      focus := "QAスポットチェック",
      owner := "QAチーム",
      status := "確定",
      note := "サンプル抜き取り率20%。"
    },
    {
      id := "S-3CB5-03",
      timeFrame := "11/13 午後",
      focus := "出荷ドキュメント作成",
      owner := "SCMオペレーション",
      status := "要確認",
      note := "輸出仕様書の更新が必要。法務確認待ち。"
    }
]

/-- The `"4CBTY2"` profile. Its object literal assigns `history` and `schedule`
twice; in JavaScript the later assignment wins (`lastProp`). -/
def profile4CBTY2 : SimulationProfile := {
    defaultQuantity := 8,
    priority := "通常",
    references := {
      conceptLT := {
        variant := "LT-β / 7日",
        days := 7,
        reason := "端末フレーム段取り替えに平均10hを見込む"
      },
      inventory := {
        sku := "4CBTY2-構成ユニット",
        available := 10,
        reserved := 2,
        comment := "安全在庫2台を保持。追加生産で即時補充可能。"
      },
      productionLoad := {
        line := "L2（筐体アセンブリ）",
        utilization := 68,
        severity := "中負荷",
        comment := "夜勤スロットが2枠空いており対応余地あり。"
      }
    },
    plans := [
      {
        label := "最短：在庫活用＋小ロット生産",
        shipDate := "2025-11-15",
        leadTimeDays := 5,
        allocation := "在庫6台 + 追加生産2台",
        manufacturingWindow := "11/11 夜勤で2台追加組立 → 11/13 QA",
        risk := "夜勤増員が必要。対応確保済みなら低リスク。",
        note := "安全在庫は0台になるが週末でリカバリ予定。"
      },
      {
        label := "代替：全量通常シフト",
        shipDate := "2025-11-18",
        leadTimeDays := 8,
        allocation := "通常シフトで8台新規生産",
        manufacturingWindow := "11/12〜11/15 日勤で分散生産",
        risk := "他案件を1日後ろ倒し。負荷平準化は確保。",
        note := "在庫は維持できるが納期は若干延伸。"
      }
    ],
    history := some (lastProp [history4CBTY2First, history4CBTY2Second] []),
    schedule := some (lastProp [schedule4CBTY2First, schedule4CBTY2Second] [])
}

def profile4CBTYK4 : SimulationProfile := {
    defaultQuantity := 4,
    priority := "至急",
    references := {
      conceptLT := {
        variant := "LT-α / 4日",
        days := 4,
        reason := "部品共通化が進んでおり即日アロケーション可能"
      },
      inventory := {
        sku := "4CBTYK4-制御モジュール",
        available := 5,
        reserved := 1,
        comment := "出荷待ち1台あり。顧客承認後なら振替可。"
      },
      productionLoad := {
        line := "L1（実装セル）",
        utilization := 82,
        severity := "中負荷",
        comment := "夜間のみ余力。検査工程は混雑していない。"
      }
    },
    plans := [
      {
        label := "最短：在庫全振り＋夜間検査",
        shipDate := "2025-11-13",
        leadTimeDays := 3,
        allocation := "在庫4台（予約1台を差替え）",
        manufacturingWindow := "11/12 夜間に最終検査のみ実施",
        risk := "予約案件との調整が前提。営業承認が必要。",
        note := "至急フラグを維持しつつリードタイム最短化。"
      },
      {
        label := "代替：部分生産で補完",
        shipDate := "2025-11-15",
        leadTimeDays := 5,
        allocation := "在庫3台 + 新規生産1台",
        manufacturingWindow := "11/12〜11/13 夜間で1台増産",
        risk := "増産分のQAが翌日にずれ込む可能性あり。",
        note := "予約在庫を1台残せるため他案件影響が小さい。"
      }
    ],
    history := some [
      {
        id := "H-4CBTYK4-01",
        title := "4CBTYK4 5台 / 現地保守向け",
        period := "2025年7月",
        quantity := 5,
        approach := "予約在庫を解放しつつ夜間シフトでQA前倒し",
        outcome := "顧客サイト稼働停止を回避。評価◎。"
      },
      {
        id := "H-4CBTYK4-02",
        title := "4CBTYK4 3台 / 北米向け特急",
        period := "2024年11月",
        quantity := 3,
        approach := "試験在庫を流用し航空便で即納体制",
        outcome := "輸送費8%増だがSLA違反を回避。"
      }
    ],
    schedule := some [
      {
        id := "S-4CBTYK4-01",
        timeFrame := "11/12 午後",
        focus := "予約在庫の差替え承認",
        owner := "CSプランナー",
        status := "調整中",
        note := "顧客B案件との優先度調整が必要。"
      },
      {
        id := "S-4CBTYK4-02",
        timeFrame := "11/12 夜",
        focus := "追加QA（信頼性試験）",
        owner := "品質保証チーム",
        status := "確定",
        note := "夜間QAの担当者割当済み。"
      },
      {
        id := "S-4CBTYK4-03",
        timeFrame := "11/13 午前",
        focus := "輸送便手配・書類更新",
        owner := "ロジ担当",
        status := "要確認",
        note := "航空便の枠確保が条件。AM9:00期限。"
      }
    ]
}

def profile4CBT2 : SimulationProfile := {
    defaultQuantity := 6,
    priority := "通常",
    references := {
      conceptLT := {
        variant := "LT-標準 / 6日",
        days := 6,
        reason := "サブ組立ラインの段取りが1日必要"
      },
      inventory := {
        sku := "4CBT2-ユニット",
        available := 4,
        reserved := 0,
        comment := "補用品として2台を確保中。差し替え容易。"
      },
      productionLoad := {
        line := "L3（モジュール組立）",
        utilization := 54,
        severity := "低負荷",
        comment := "週内に余裕があり、追い越し対応が容易。"
      }
    },
    plans := [
      {
        label := "最短：在庫4台＋即時増産2台",
        shipDate := "2025-11-16",
        leadTimeDays := 6,
        allocation := "在庫4台 + 新規生産2台",
        manufacturingWindow := "11/11〜11/13 で2台生産 → 11/14 QA",
        risk := "特記事項なし。負荷に余裕あり。",
        note := "在庫0台になるため補充計画を同時実行推奨。"
      },
      {
        label := "代替：増産を翌週へシフト",
        shipDate := "2025-11-19",
        leadTimeDays := 9,
        allocation := "在庫4台 + 翌週日勤で2台",
        manufacturingWindow := "11/15〜11/18 日勤枠",
        risk := "納期は延びるが在庫1台を保持可能。",
        note := "月末の需要ピークに備えたい場合に適合。"
      }
    ],
    history := some [
      {
        id := "H-4CBT2-01",
        title := "4CBT2 8台 / 量産立ち上げ前倒し",
        period := "2025年1月",
        quantity := 8,
        approach := "在庫4台 + 追加増産4台を分割手配",
        outcome := "ライン負荷平準化と在庫維持を両立。"
      },
      {
        id := "H-4CBT2-02",
        title := "4CBT2 5台 / 部材不足時対応",
        period := "2024年9月",
        quantity := 5,
        approach := "代替部材を使用しQA工程を延長",
        outcome := "出荷2日遅延も顧客合意済み。品質問題なし。"
      }
    ],
    schedule := some [
      {
        id := "S-4CBT2-01",
        timeFrame := "11/11 午後",
        focus := "在庫引当と補充ロット登録",
        owner := "需給管理",
        status := "確定",
        note := "WMS反映済み。補充は11/20着予定。"
      },
      {
        id := "S-4CBT2-02",
        timeFrame := "11/12〜11/13",
        focus := "追加2台の組立",
        owner := "L3日勤リーダー",
        status := "調整中",
        note := "作業手順書Rev.12を使用。人員割当未確定。"
      },
      {
        id := "S-4CBT2-03",
        timeFrame := "11/14 午前",
        focus := "QA・最終検査",
        owner := "QAチーム",
        status := "要確認",
        note := "過去不具合の振返り項目を追加確認。"
      }
    ]
}

def profile4CBT3 : SimulationProfile := {
    defaultQuantity := 7,
    priority := "通常",
    references := {
      conceptLT := {
        variant := "LT-β / 7日",
        days := 7,
        reason := "制御基板の調整工程が48h必要"
      },
      inventory := {
        sku := "4CBT3-制御基板",
        available := 5,
        reserved := 1,
        comment := "品質確認待ち1台。リリース見込みは翌営業日。"
      },
      productionLoad := {
        line := "L4（電装組立）",
        utilization := 71,
        severity := "中負荷",
        comment := "週後半に大型案件が入り稼働率上昇見込み。"
      }
    },
    plans := [
      {
        label := "最短：在庫5台＋電装ライン夜勤2台",
        shipDate := "2025-11-17",
        leadTimeDays := 7,
        allocation := "在庫5台 + 夜勤2台",
        manufacturingWindow := "11/12〜11/14 夜勤枠で組立",
        risk := "夜勤班のQA対応がタイト。補強が必要。",
        note := "週後半の大型案件開始前に完了可能。"
      },
      {
        label := "代替：全量通常シフトへの切替",
        shipDate := "2025-11-20",
        leadTimeDays := 10,
        allocation := "日勤で7台順次生産",
        manufacturingWindow := "11/13〜11/18 日勤枠",
        risk := "在庫を温存できるが大型案件と競合。",
        note := "夜勤対応が難しい場合の安全策。"
      }
    ],
    history := some [
      {
        id := "H-4CBT3-01",
        title := "4CBT3 9台 / 大型案件前倒し",
        period := "2025年6月",
        quantity := 9,
        approach := "夜勤3枠を追加し制御基板を先行調整",
        outcome := "顧客立会い前にバッファ2日確保。"
      },
      {
        id := "H-4CBT3-02",
        title := "4CBT3 4台 / 短納期部品振替",
        period := "2024年11月",
        quantity := 4,
        approach := "他ラインの余剰在庫を流用しQA強化",
        outcome := "品質評価◎、CTQ項目ゼロ不具合。"
      }
    ],
    schedule := some [
      {
        id := "S-4CBT3-01",
        timeFrame := "11/12 夜",
        focus := "制御基板調整 2台",
        owner := "L4夜勤SV",
        status := "調整中",
        note := "夜勤メンバーの超過勤務承認が必要。"
      },
      {
        id := "S-4CBT3-02",
        timeFrame := "11/13 午後",
        focus := "ファームウェア焼き付け・検証",
        owner := "ソフトQA",
        status := "確定",
        note := "バージョン1.2.6を展開予定。"
      },
      {
        id := "S-4CBT3-03",
        timeFrame := "11/15 午前",
        focus := "最終組立＆梱包",
        owner := "L4日勤",
        status := "要確認",
        note := "大型案件とのライン共有を事前調整。"
      }
    ]
}

def profile4CBTK4 : SimulationProfile := {
    defaultQuantity := 5,
    priority := "試作",
    references := {
      conceptLT := {
        variant := "LT-試作 / 8日",
        days := 8,
        reason := "専用治具の調整とQAが長めに設定されている"
      },
      inventory := {
        sku := "4CBTK4-試作キット",
        available := 6,
        reserved := 0,
        comment := "試作セル用に常時6台をキープ中。"
      },
      productionLoad := {
        line := "L5（試作セル）",
        utilization := 38,
        severity := "低負荷",
        comment := "柔軟にスケジュール可能。週末メンテ前まで余裕。"
      }
    },
    plans := [
      {
        label := "最短：在庫引当＋QA重点",
        shipDate := "2025-11-16",
        leadTimeDays := 6,
        allocation := "在庫5台を即時引当",
        manufacturingWindow := "11/12〜11/14 で追加QA",
        risk := "ファームウェア更新が11/13予定。遅延に注意。",
        note := "試験結果を早期取得したい場合に最適。"
      },
      {
        label := "代替：評価工程を追加",
        shipDate := "2025-11-19",
        leadTimeDays := 9,
        allocation := "在庫5台 + 検証を48h延長",
        manufacturingWindow := "11/12〜11/17 逐次検証",
        risk := "納期は延びるが確認粒度が上がる。",
        note := "顧客レビュー前に精度を高めたい場合に推奨。"
      }
    ],
    history := some [
      {
        id := "H-4CBTK4-01",
        title := "4CBTK4 6台 / 試作検証サイクル",
        period := "2025年5月",
        quantity := 6,
        approach := "在庫5台 + 追加1台で逐次評価、QA延長",
        outcome := "検証リードタイム-20%。品質指摘ゼロ。"
      },
      {
        id := "H-4CBTK4-02",
        title := "4CBTK4 4台 / 技術評価チーム案件",
        period := "2024年8月",
        quantity := 4,
        approach := "評価工程を3日延ばし成果物に反映",
        outcome := "顧客満足度向上。次期案件に繋がる。"
      }
    ],
    schedule := some [
      {
        id := "S-4CBTK4-01",
        timeFrame := "11/12 午前",
        focus := "試作セル手配・治具事前チェック",
        owner := "試作セル管理者",
        status := "確定",
        note := "治具セットは前日夜に完了予定。"
      },
      {
        id := "S-4CBTK4-02",
        timeFrame := "11/13〜11/14",
        focus := "追加QA＋検証ログ取得",
        owner := "テクニカルQA",
        status := "調整中",
        note := "ログフォーマットRev.4.2を使用。"
      },
      {
        id := "S-4CBTK4-03",
        timeFrame := "11/15 午後",
        focus := "評価レビュー・顧客共有資料作成",
        owner := "プロジェクト担当",
        status := "要確認",
        note := "顧客レビュー会議 11/16 10:00予定。"
      }
    ]
}

def profile3CB5 : SimulationProfile := {
    defaultQuantity := 5,
    priority := "通常",
    references := {
      conceptLT := {
        variant := "LT-標準 / 5日",
        days := 5,
        reason := "構造がシンプルで即日ライン投入が可能"
      },
      inventory := {
        sku := "3CB5-ベースユニット",
        available := 7,
        reserved := 1,
        comment := "サービスパーツ向けに1台予約。代替あり。"
      },
      productionLoad := {
        line := "L2（筐体アセンブリ）",
        utilization := 46,
        severity := "低負荷",
        comment := "増産に充分な余裕あり。交代要員も確保済み。"
      }
    },
    plans := [
      {
        label := "最短：在庫全引当",
        shipDate := "2025-11-14",
        leadTimeDays := 4,
        allocation := "在庫5台をそのまま出荷",
        manufacturingWindow := "11/12 QAで再確認のみ",
        risk := "リスク極小。予約分は別SKUで代替予定。",
        note := "即日意思決定で翌営業日に出荷可能。"
      },
      {
        label := "代替：在庫3台＋増産2台",
        shipDate := "2025-11-17",
        leadTimeDays := 7,
        allocation := "在庫3台 + 追加生産2台",
        manufacturingWindow := "11/13〜11/15 で2台増産",
        risk := "増産分のQA負荷増。対応は可能。",
        note := "在庫を一部残しておきたい場合に適合。"
      }
    ]
}

def profile3CB10 : SimulationProfile := {
    defaultQuantity := 7,
    priority := "通常",
    references := {
      conceptLT := {
        variant := "LT-拡張 / 8日",
        days := 8,
        reason := "大型筐体の物流調整に追加2日を見込む"
      },
      inventory := {
        sku := "3CB10-大型ユニット",
        available := 6,
        reserved := 0,
        comment := "大型機は在庫6台のみ。補充には4日必要。"
      },
      productionLoad := {
        line := "L6（大型セル）",
        utilization := 75,
        severity := "中負荷",
        comment := "フォークリフト手配が必要。夜間は作業不可。"
      }
    },
    plans := [
      {
        label := "最短：在庫6台＋日勤1台",
        shipDate := "2025-11-18",
        leadTimeDays := 8,
        allocation := "在庫6台 + 日勤で1台",
        manufacturingWindow := "11/12〜11/14 日勤枠で1台追加",
        risk := "物流調整がタイト。前倒しで輸送便を確保済み。",
        note := "在庫ゼロとなるため補充便の手配が必要。"
      },
      {
        label := "代替：在庫保持＋翌週生産",
        shipDate := "2025-11-21",
        leadTimeDays := 11,
        allocation := "在庫4台 + 翌週で3台増産",
        manufacturingWindow := "11/18〜11/20 日勤枠",
        risk := "物流便を翌週に再調整。コスト増。",
        note := "緊急案件とのバッファを残したい場合に。"
      }
    ],
    history := some [
      {
        id := "H-3CB10-01",
        title := "3CB10 9台 / 大型案件サポート",
        period := "2025年2月",
        quantity := 9,
        approach := "在庫6台 + 日勤3台で段階対応",
        outcome := "物流再調整でコスト+5%も顧客満足度◎。"
      },
      {
        id := "H-3CB10-02",
        title := "3CB10 6台 / 物流制約時",
        period := "2024年10月",
        quantity := 6,
        approach := "在庫分だけ先行出荷、残りを翌週便",
        outcome := "納期SLAを維持しリスクを低減。"
      }
    ],
    schedule := some [
      {
        id := "S-3CB10-01",
        timeFrame := "11/12 午後",
        focus := "フォークリフト手配・搬送計画",
        owner := "物流チーム",
        status := "調整中",
        note := "夜間搬送不可。日勤リソース調整中。"
      },
      {
        id := "S-3CB10-02",
        timeFrame := "11/13〜11/14",
        focus := "大型梱包・補強検査",
        owner := "L6日勤",
        status := "確定",
        note := "梱包材#L6-2025を優先使用。"
      },
      {
        id := "S-3CB10-03",
        timeFrame := "11/17 午前",
        focus := "輸送便最終確定",
        owner := "SCMロジ",
        status := "要確認",
        note := "翌週便差替え時は顧客承認が必要。"
      }
    ]
}

def profile4CBM10 : SimulationProfile := {
    defaultQuantity := 6,
    priority := "通常",
    references := {
      conceptLT := {
        variant := "LT-モジュール / 6日",
        days := 6,
        reason := "モーター調整工程が24h必要"
      },
      inventory := {
        sku := "4CBM10-モーターアッセン",
        available := 5,
        reserved := 1,
        comment := "試験用に1台キープ。優先度次第で解放可。"
      },
      productionLoad := {
        line := "L3（モジュール組立）",
        utilization := 63,
        severity := "中負荷",
        comment := "ラインシフトを追加すれば当週内に対応可能。"
      }
    },
    plans := [
      {
        label := "最短：在庫5台＋短時間増産1台",
        shipDate := "2025-11-16",
        leadTimeDays := 6,
        allocation := "在庫5台 + 追加生産1台",
        manufacturingWindow := "11/12 夜勤で1台追加 → 11/14 QA",
        risk := "夜勤工程の確保が前提。品質管理は通常通り。",
        note := "試験在庫を残すかは営業判断で調整可。"
      },
      {
        label := "代替：在庫優先で4台回答",
        shipDate := "2025-11-14",
        leadTimeDays := 4,
        allocation := "在庫4台を先行出荷、残り2台は翌便",
        manufacturingWindow := "11/16 日勤で残2台",
        risk := "分割出荷で輸送コストが上昇。",
        note := "顧客都合で部分納入が許容される場合の選択肢。"
      }
    ],
    history := some [
      {
        id := "H-4CBM10-01",
        title := "4CBM10 7台 / 定期メンテ補充",
        period := "2025年5月",
        quantity := 7,
        approach := "在庫5台 + 夜勤で2台増産",
        outcome := "LTを1日短縮し現場稼働を維持。"
      },
      {
        id := "H-4CBM10-02",
        title := "4CBM10 5台 / 分割納入対応",
        period := "2024年11月",
        quantity := 5,
        approach := "在庫4台先行出荷、残1台を翌便",
        outcome := "輸送コスト+6%も顧客満足度改善。"
      }
    ],
    schedule := some [
      {
        id := "S-4CBM10-01",
        timeFrame := "11/12 夜",
        focus := "モーター調整・1台増産",
        owner := "L3夜勤リーダー",
        status := "調整中",
        note := "調整治具の校正を11/12 18時に実施予定。"
      },
      {
        id := "S-4CBM10-02",
        timeFrame := "11/14 午前",
        focus := "品質確認・振動試験",
        owner := "品質保証チーム",
        status := "確定",
        note := "振動試験プロファイル#VG-7を使用。"
      },
      {
        id := "S-4CBM10-03",
        timeFrame := "11/15 午後",
        focus := "部分出荷の輸送手配",
        owner := "SCMオペレーション",
        status := "要確認",
        note := "顧客と受入時間帯の最終確認を実施。"
      }
    ]
}

/-- Model of `DEFAULT_SIMULATION` (src/app/page.tsx lines 801-854). -/
def DEFAULT_SIMULATION : SimulationProfile := {
  defaultQuantity := 5,
  priority := "通常",
  references := {
    conceptLT := {
      variant := "LT-標準 / 6日",
      days := 6,
      reason := "詳細未登録のため標準リードタイムを適用"
    },
    inventory := {
      sku := "未登録型番",
      available := 6,
      reserved := 1,
      comment := "暫定値です。案件登録後に在庫情報を更新してください。"
    },
    productionLoad := {
      line := "未割当ライン",
      utilization := 55,
      severity := "中負荷",
      comment := "詳細計画未設定。需要計画チームに確認が必要です。"
    }
  },
  plans := [
    {
      label := "最短：標準ロット適用",
      shipDate := "2025-11-20",
      leadTimeDays := 10,
      allocation := "在庫3台 + 新規生産2台",
      manufacturingWindow := "標準LTに基づく自動スケジュール",
      risk := "前提情報が不足。担当者レビュー推奨。",
      note := "案件登録後に再計算してください。"
    }
  ],
  history := some [
    {
      id := "H-DEFAULT-01",
      title := "標準テンプレ 5台 / 仮シミュレーション",
      period := "参考",
      quantity := 5,
      approach := "在庫3台 + 新規2台での標準対応",
      outcome := "案件登録後に詳細を再確認してください。"
    }
  ],
  schedule := some [
    {
      id := "S-DEFAULT-01",
      timeFrame := "未確定",
      focus := "案件詳細の登録",
      owner := "担当営業",
      status := "要確認",
      note := "型番・構成情報をシステム登録後に再計算します。"
    }
  ]
}

/-- The fixture table as an association list in object-literal declaration order
(`Object.keys` enumerates non-index string keys in insertion order). -/
def SIMULATION_LIBRARY : List (String × SimulationProfile) := [
  ("4CBTY2", profile4CBTY2),
  ("4CBTYK4", profile4CBTYK4),
  ("4CBT2", profile4CBT2),
  ("4CBT3", profile4CBT3),
  ("4CBTK4", profile4CBTK4),
  ("3CB5", profile3CB5),
  ("3CB10", profile3CB10),
  ("4CBM10", profile4CBM10)
]
/-! ## Simulation matcher (src/app/page.tsx lines 856-864)

```
const simulateShipment = (projectName) => {
  const normalized = projectName.trim()
  const upper = normalized.toUpperCase()
  const key = Object.keys(SIMULATION_LIBRARY).find((candidate) => upper.includes(candidate))
  if (key) return { ...SIMULATION_LIBRARY[key], matchedKey: key }
  return { ...DEFAULT_SIMULATION, matchedKey: "default" }
}
```
The result record is modelled as a pair (profile, matchedKey). -/
def simulateShipment (projectName : String) : SimulationProfile × String :=
  let upper := jsToUpper (jsTrim projectName)
  match SIMULATION_LIBRARY.find? (fun kv => containsSub upper.data kv.1.data) with
  | some kv => (kv.2, kv.1)
  | none => (DEFAULT_SIMULATION, "default")

/-! ## Order-info extractor (src/app/page.tsx lines 868-894)

Three regular expressions occur:

* `/案件名\s*[:：]\s*([^\n\r]+)/i` — explicit project-name marker;
* `/出荷シミュレーション|納期回答|お願いします?|ください/g` — boilerplate stripping;
* `/(\d{1,4})\s*(台|個|本|セット|set)/i` — quantity.

Each is modelled by a deterministic function shown equivalent to the
leftmost-match backtracking search of the engine by the case analyses in the
comments. -/

/-- Test that `c` is not a line terminator, the class `[^\n\r]`. -/
def notCRLF (c : Char) : Bool := c != '\n' && c != '\r'

/-- The part of `/案件名\s*[:：]\s*([^\n\r]+)/` after the colon: greedy `\s*`
followed by the greedy capture `([^\n\r]+)`.

After the maximal whitespace run `w`, let `rest` be what remains.  If `rest` is
non-empty its head is non-whitespace, hence not `\n`/`\r`, and the capture is
the maximal `[^\n\r]` run of `rest` with no backtracking.  If `rest` is empty
the engine backtracks `\s*` one character at a time, so `([^\n\r]+)` matches
exactly the last character of `w` that is not a line terminator, if any. -/
def captureAfterColon (r : List Char) : Option (List Char) :=
  let w := r.takeWhile isJsWs
  let rest := r.dropWhile isJsWs
  match rest with
  | _ :: _ => some (rest.takeWhile notCRLF)
  | [] =>
    match w.reverse.dropWhile (fun c => !notCRLF c) with
    | c :: _ => some [c]
    | [] => none

/-- Try `/案件名\s*[:：]\s*([^\n\r]+)/` anchored at the head of the list.
`\s*` before the colon is greedy but deterministic, because no whitespace
character is a colon. -/
def explicitAt : List Char → Option (List Char)
  | '案' :: '件' :: '名' :: r =>
    match r.dropWhile isJsWs with
    | c :: r2 => if c = ':' || c = '：' then captureAfterColon r2 else none
    | [] => none
  | _ => none

/-- Leftmost match of `/案件名\s*[:：]\s*([^\n\r]+)/i` over the whole input,
returning the capture group (the `i` flag is inert: the pattern has no
cased ASCII letters). -/
def findExplicit : List Char → Option (List Char)
  | [] => none
  | l@(_ :: t) =>
    match explicitAt l with
    | some cap => some cap
    | none => findExplicit t

/-- One global-replace step of
`/出荷シミュレーション|納期回答|お願いします?|ください/g` with `""`:
at each position try the alternatives left to right (`お願いします` before the
shorter `お願いしま`, matching the greedy `す?`); on a match drop it and resume
after it, otherwise keep the character and move on.  The alternatives start
with four distinct characters, so the left-to-right order only matters inside
`お願いします?`. -/
def stripBoilerplate : List Char → List Char
  | '出' :: '荷' :: 'シ' :: 'ミ' :: 'ュ' :: 'レ' :: 'ー' :: 'シ' :: 'ョ' :: 'ン' :: t =>
    stripBoilerplate t
  | '納' :: '期' :: '回' :: '答' :: t => stripBoilerplate t
  | 'お' :: '願' :: 'い' :: 'し' :: 'ま' :: 'す' :: t => stripBoilerplate t
  | 'お' :: '願' :: 'い' :: 'し' :: 'ま' :: t => stripBoilerplate t
  | 'く' :: 'だ' :: 'さ' :: 'い' :: t => stripBoilerplate t
  | c :: t => c :: stripBoilerplate t
  | [] => []

/-- The unit alternation `(台|個|本|セット|set)` with the `i` flag matches at the
head of `l`.  Only `set` contains cased ASCII letters. -/
def unitAt (l : List Char) : Bool :=
  match l with
  | '台' :: _ => true
  | '個' :: _ => true
  | '本' :: _ => true
  | 'セ' :: 'ッ' :: 'ト' :: _ => true
  | a :: e :: t :: _ =>
    (a == 's' || a == 'S') && (e == 'e' || e == 'E') && (t == 't' || t == 'T')
  | _ => false

/-- Try `/(\d{1,4})\s*(台|個|本|セット|set)/i` anchored at the head of the list,
returning the digit capture.

The greedy `\d{1,4}` takes `min(4, run)` digits.  Backtracking to fewer digits
never succeeds: the next character would then be a digit, which is neither
whitespace nor the start of a unit token.  The greedy `\s*` is likewise
deterministic because no unit token starts with whitespace. -/
def quantAt (l : List Char) : Option (List Char) :=
  let ds := (l.takeWhile isDigit).take 4
  if ds.isEmpty then none
  else if unitAt ((l.drop ds.length).dropWhile isJsWs) then some ds else none

/-- Leftmost match of the quantity pattern over the whole input. -/
def findQuant : List Char → Option (List Char)
  | [] => none
  | l@(_ :: t) =>
    match quantAt l with
    | some ds => some ds
    | none => findQuant t

/-- The record returned by `extractOrderInfo`. -/
structure OrderInfo where
  projectName : Option String
  quantity : Option Int
deriving DecidableEq, Repr

/-! ### `extractOrderInfo` (src/app/page.tsx lines 868-894)

```
const explicit = raw.match(/案件名\s*[:：]\s*([^\n\r]+)/i)
let projectName = explicit ? explicit[1].trim() : null
if (!projectName || projectName.length === 0) {
  const firstLine = raw.split(/\r?\n/).map((line) => line.trim()).find((line) => line.length > 0)
  projectName = firstLine ?? null
}
if (projectName) {
  const sanitized = projectName.replace(/出荷シミュレーション|納期回答|お願いします?|ください/g, "").trim()
  projectName = sanitized.length > 0 ? sanitized : projectName
}
const quantityMatch = raw.match(/(\d{1,4})\s*(台|個|本|セット|set)/i)
const quantity = quantityMatch ? Number.parseInt(quantityMatch[1], 10) : undefined
return { projectName: projectName && projectName.length > 0 ? projectName : null,
         quantity: Number.isFinite(quantity) ? quantity : undefined }
```
An empty string is falsy in JavaScript, so both the `!projectName` and the
final guard collapse `some ""` and `none` alike; `Number.isFinite(undefined)`
is `false`, and the parse of 1–4 digits is always finite.  The three steps are
split into `firstNonBlankLine`, `extractProjectName` and `extractOrderInfo`
below. -/

/-- The first-line fallback of `extractOrderInfo` (line 878):
`raw.split(/\r?\n/).map((line) => line.trim()).find((line) => line.length > 0)`. -/
def firstNonBlankLine (raw : String) : Option (List Char) :=
  ((splitLines raw.data).map jsTrimList).find? fun l => !l.isEmpty

/-- Steps 1-3 of `extractOrderInfo` (lines 874-885): the explicit-marker
capture, trimmed, with the first-non-blank-line fallback when it is absent or
empty, then boilerplate stripping that is kept only when it leaves a non-empty
string. -/
def extractProjectName (raw : String) : Option (List Char) :=
  let explicitCap := findExplicit raw.data
  let projectName0 : Option (List Char) :=
    match explicitCap with
    | some cap =>
      let p := jsTrimList cap
      if p.isEmpty then firstNonBlankLine raw else some p
    | none => firstNonBlankLine raw
  match projectName0 with
  | some p =>
    let sanitized := jsTrimList (stripBoilerplate p)
    some (if !sanitized.isEmpty then sanitized else p)
  | none => none

def extractOrderInfo (raw : String) : OrderInfo :=
  { projectName :=
      match extractProjectName raw with
      | some p => if p.isEmpty then none else some ⟨p⟩
      | none => none,
    quantity := (findQuant raw.data).map digitsToInt }

/-! ## Narrative builder (src/app/page.tsx lines 896-976) -/

/-- JavaScript truthiness of the optional `quantity` number: `undefined` and
`0` are falsy. -/
def jsTruthy (q : Option Int) : Bool :=
  match q with
  | none => false
  | some v => v != 0

/-- The `diffLine` constant of `buildSimulationResponse` (lines 899-904):

```
const diff = quantity ? quantity - simulation.defaultQuantity : 0
const diffLine = quantity
  ? diff === 0
    ? "数量差異: 標準ロットと同数です。"
    : `数量差異: ${diff > 0 ? "+" : ""}${diff}台（標準 ${formatNumber(simulation.defaultQuantity)}台）`
  : `数量差異: 標準ロット ${formatNumber(simulation.defaultQuantity)}台を基準に計算しています。`
``` -/
def diffLineFor (defaultQuantity : Nat) (quantity : Option Int) : String :=
  let diff : Int := if jsTruthy quantity then quantity.getD 0 - defaultQuantity else 0
  if jsTruthy quantity then
    if diff = 0 then "数量差異: 標準ロットと同数です。"
    else "数量差異: " ++ (if diff > 0 then "+" else "") ++ toString diff
      ++ "台（標準 " ++ formatNumber defaultQuantity ++ "台）"
  else "数量差異: 標準ロット " ++ formatNumber defaultQuantity ++ "台を基準に計算しています。"

/-- The block of five lines pushed for the alternative plan of 0-based index
`index` by the `alternativePlans.forEach` loop (lines 946-959), headed by
`▲ 代替案${index + 1}  |  ${plan.label}`. -/
def altPlanBlock (index : Nat) (plan : SimulationPlan) : List String :=
  ["",
   "━━━━━━━━━━━━━━━━━━━━━━━━━━━━━━━━━━━━━━━━",
   "",
   "▲ 代替案" ++ toString (index + 1) ++ "  |  " ++ plan.label,
   "",
   "  📅 出荷日: " ++ plan.shipDate ++ "  /  LT: " ++ toString plan.leadTimeDays ++ "日",
   "  📦 アロケーション: " ++ plan.allocation,
   "  🏭 製造ウィンドウ: " ++ plan.manufacturingWindow,
   "  ⚠️  リスク: " ++ plan.risk,
   "  📝 メモ: " ++ plan.note]

/-- The leading segment of the `lines` array of `buildSimulationResponse`
(lines 909-944): header, reference snapshot, and the primary-plan block; 33
elements.  `primaryPlan` is the head of the destructuring
`const [primaryPlan, ...alternativePlans] = simulation.plans`. -/
def headerLines (projectName : String) (quantity : Option Int)
    (simProf : SimulationProfile) (matchedKey : String)
    (primaryPlan : SimulationPlan) : List String :=
  let requestedQuantity : Int := quantity.getD simProf.defaultQuantity
  let diffLine := diffLineFor simProf.defaultQuantity quantity
  let conceptLT := simProf.references.conceptLT
  let inventory := simProf.references.inventory
  let productionLoad := simProf.references.productionLoad
  ["案件名: " ++ projectName,
   "",
   "参照テンプレート: " ++
     (if matchedKey = "default" then "標準プロファイル（案件登録推奨）" else matchedKey),
   "優先度: " ++ simProf.priority ++ "  /  リクエスト数量: "
     ++ formatNumber requestedQuantity ++ "台",
   diffLine,
   "",
   "━━━━━━━━━━━━━━━━━━━━━━━━━━━━━━━━━━━━━━━━",
   "",
   "■ 自動参照スナップショット",
   "",
   "【コンセプトLT】",
   "  " ++ conceptLT.variant ++ "（" ++ toString conceptLT.days ++ "日） - " ++ conceptLT.reason,
   "",
   "【在庫】",
   "  SKU: " ++ inventory.sku ++ "  /  利用可能: " ++ formatNumber inventory.available
     ++ "台（予約: " ++ formatNumber inventory.reserved ++ "台）",
   "  " ++ inventory.comment,
   "",
   "【製造負荷】",
   "  ライン: " ++ productionLoad.line ++ "  /  稼働率: "
     ++ toString productionLoad.utilization ++ "%（" ++ productionLoad.severity ++ "）",
   "  " ++ productionLoad.comment,
   "",
   "━━━━━━━━━━━━━━━━━━━━━━━━━━━━━━━━━━━━━━━━",
   "",
   "■ 出荷プラン",
   "",
   "◎ 最短案  |  " ++ primaryPlan.label,
   "",
   "  📅 出荷日: " ++ primaryPlan.shipDate ++ "  /  LT: "
     ++ toString primaryPlan.leadTimeDays ++ "日",
   "  📦 アロケーション: " ++ primaryPlan.allocation,
   "  🏭 製造ウィンドウ: " ++ primaryPlan.manufacturingWindow,
   "  ⚠️  リスク: " ++ primaryPlan.risk,
   "  📝 メモ: " ++ primaryPlan.note]

/-- The five closing lines pushed after the `forEach` loop (lines 961-968). -/
def footerLines : List String :=
  ["",
   "━━━━━━━━━━━━━━━━━━━━━━━━━━━━━━━━━━━━━━━━",
   "",
   "📌 補足: " ++ REFERENCE_NOTE,
   "",
   "💡 意思決定: 最短案で承認  /  代替案に切替  /  条件を修正 のいずれかをご指示ください。"]

/-- The full `lines` array of `buildSimulationResponse` (lines 909-968), for a
given matched simulation: the header-and-primary segment, then the blocks
pushed by the `alternativePlans.forEach` loop, then the closing lines.
`const [primaryPlan, ...alternativePlans] = simulation.plans` destructures the
non-empty plan list; on an empty list the TypeScript would interpolate
`undefined`, a case that never arises (`simulateShipment_plans_ne_nil`) and is
mapped to `[]` here. -/
def narrativeLinesCore (projectName : String) (quantity : Option Int)
    (simProf : SimulationProfile) (matchedKey : String) : List String :=
  match simProf.plans with
  | [] => []
  | primaryPlan :: alternativePlans =>
    headerLines projectName quantity simProf matchedKey primaryPlan
      ++ (alternativePlans.enum.map fun ip => altPlanBlock ip.1 ip.2).flatten
      ++ footerLines

/-- The `lines` array of `buildSimulationResponse projectName quantity`. -/
def narrativeLines (projectName : String) (quantity : Option Int) : List String :=
  let sim := simulateShipment projectName
  narrativeLinesCore projectName quantity sim.1 sim.2

/-- The record returned by `buildSimulationResponse`. -/
structure SimResponse where
  narrative : String
  history : Option (List SimilarCase)
  schedule : Option (List ScheduleBlock)
  shipDate : String
deriving DecidableEq, Repr

/-- Model of `buildSimulationResponse` (src/app/page.tsx lines 896-976).  Its returned
`shipDate` field is the hardcoded literal `"2025-11-30"` (line 974). -/
def buildSimulationResponse (projectName : String) (quantity : Option Int) : SimResponse :=
  let sim := simulateShipment projectName
  { narrative := String.intercalate "\n" (narrativeLinesCore projectName quantity sim.1 sim.2),
    history := sim.1.history,
    schedule := sim.1.schedule,
    shipDate := "2025-11-30" }

/-! ## Chat view submission handler (src/app/page.tsx lines 978-1091) -/

def GUIDANCE_MESSAGE : String :=
  "案件名が特定できませんでした。例：「案件名: 4CBTY2 8台で出荷シミュレーション」と入力してください。"

/-- A chat `Message` (src/app/page.tsx lines 12-19); the optional fields are
present only on simulation replies. -/
structure Message where
  id : String
  role : String
  content : String
  history : Option (List SimilarCase) := none
  schedule : Option (List ScheduleBlock) := none
  shipDate : Option String := none
deriving DecidableEq, Repr

/-- The effect of `handleSend` (src/app/page.tsx lines 1043-1091) on the message
list, once the 3-second reply timer has fired.  `uid` stands for the
`Date.now()` suffix used to mint ids.  Submission is ignored while a response
is pending (`isGenerating`) or when the trimmed input is empty; otherwise the
user message is appended, and then either the simulation reply (when a project
name was extracted) or the fixed guidance message. -/
def handleSend (isGenerating : Bool) (input uid : String) (msgs : List Message) :
    List Message :=
  if isGenerating then msgs
  else
    let content := jsTrim input
    if content = "" then msgs
    else
      let orderInfo := extractOrderInfo content
      let userMessage : Message := { id := "user-" ++ uid, role := "user", content := content }
      let base := msgs ++ [userMessage]
      match orderInfo.projectName with
      | some name =>
        let assistantResponse := buildSimulationResponse name orderInfo.quantity
        base ++ [{ id := "assistant-" ++ uid, role := "assistant",
                   content := assistantResponse.narrative,
                   history := assistantResponse.history,
                   schedule := assistantResponse.schedule,
                   shipDate := some assistantResponse.shipDate }]
      | none =>
        base ++ [{ id := "assistant-" ++ uid, role := "assistant",
                   content := GUIDANCE_MESSAGE }]

/-! ## Schedule confirmation handlers -/

/-- The per-block confirm button (src/app/page.tsx lines 1274-1290): map over the
schedule of the message, switching the status of the block with the given id to
`確定`. -/
def confirmBlock (blocks : List ScheduleBlock) (blockId : String) : List ScheduleBlock :=
  blocks.map fun b => if b.id = blockId then { b with status := "確定" } else b

/-- The `すべて確定する` button of `CalendarView` (src/app/page.tsx lines
1614-1626): switch the status of every block to `確定`. -/
def confirmAll (blocks : List ScheduleBlock) : List ScheduleBlock :=
  blocks.map fun b => { b with status := "確定" }

/-- The `setMessages` update shared by both confirm paths (lines 1280-1284 and
1412-1419): replace the schedule of the message with the given id by the
updated schedule, leaving every other message untouched. -/
def applyScheduleUpdate (msgs : List Message) (messageId : String)
    (updatedSchedule : List ScheduleBlock) : List Message :=
  msgs.map fun m =>
    if m.id = messageId then { m with schedule := some updatedSchedule } else m

/-! ## Spec-side characterizations used by the claims -/

/-- Modelled from the words of claim C7: the input contains a sequence of
1–4 digits *immediately* followed by a recognized unit token (no intervening
whitespace).  Only the maximal digit run at a position can qualify, since a
shorter run is followed by a digit, which no unit token starts with. -/
def immediateQuantExists (l : List Char) : Bool :=
  l.tails.any fun t =>
    let ds := (t.takeWhile isDigit).take 4
    !ds.isEmpty && unitAt (t.drop ds.length)

/-- The quantity regex `/(\d{1,4})\s*(台|個|本|セット|set)/i` matches the whole
list `l` at its head with digit capture `ds`, stated as a decomposition:
`ds` non-empty digits (at most 4), then whitespace, then a unit token. -/
def QuantPatternAt (l ds : List Char) : Prop :=
  ∃ w rest, l = ds ++ w ++ rest ∧ ds ≠ [] ∧ ds.length ≤ 4 ∧
    (∀ c ∈ ds, isDigit c) ∧ (∀ c ∈ w, isJsWs c) ∧ unitAt rest
/-! ## Helper lemmas -/

/-- Computation of `String.append` on the underlying character lists. -/
theorem data_append (s t : String) : (s ++ t).data = s.data ++ t.data := rfl

/-- Lemma: `List.find?` returns the element at index `i` when it satisfies the
predicate and no earlier element does. -/
theorem find?_eq_get {α : Type} (p : α → Bool) :
    ∀ (l : List α) (i : Fin l.length), p (l.get i) = true →
      (∀ j : Fin l.length, j < i → p (l.get j) = false) → l.find? p = some (l.get i)
  | a :: _, ⟨0, _⟩, hp, _ => List.find?_cons_of_pos _ hp
  | a :: t, ⟨j + 1, hj⟩, hp, hfirst => by
    have ha : p a = false := hfirst ⟨0, Nat.succ_pos _⟩ (by simp [Fin.lt_def])
    rw [List.find?_cons_of_neg _ (by simp [ha])]
    exact find?_eq_get p t ⟨j, Nat.lt_of_succ_lt_succ hj⟩ hp fun j2 hj2 =>
      hfirst ⟨j2.1 + 1, Nat.succ_lt_succ j2.2⟩ (by simpa [Fin.lt_def] using Nat.succ_lt_succ hj2)

/-- Equation for `simulateShipment` with its `let` bindings reduced. -/
theorem simulateShipment_eq (s : String) :
    simulateShipment s =
      match SIMULATION_LIBRARY.find?
          (fun kv => containsSub (jsToUpper (jsTrim s)).data kv.1.data) with
      | some kv => (kv.2, kv.1)
      | none => (DEFAULT_SIMULATION, "default") := rfl

/-- Lemma: `simulateShipment` always yields one of the eight library profiles (with
its key) or the default profile (with key `"default"`). -/
theorem simulateShipment_cases (s : String) :
    simulateShipment s = (profile4CBTY2, "4CBTY2") ∨
    simulateShipment s = (profile4CBTYK4, "4CBTYK4") ∨
    simulateShipment s = (profile4CBT2, "4CBT2") ∨
    simulateShipment s = (profile4CBT3, "4CBT3") ∨
    simulateShipment s = (profile4CBTK4, "4CBTK4") ∨
    simulateShipment s = (profile3CB5, "3CB5") ∨
    simulateShipment s = (profile3CB10, "3CB10") ∨
    simulateShipment s = (profile4CBM10, "4CBM10") ∨
    simulateShipment s = (DEFAULT_SIMULATION, "default") := by
  rcases hfind : SIMULATION_LIBRARY.find?
      (fun kv => containsSub (jsToUpper (jsTrim s)).data kv.1.data) with _ | kv
  · simp only [simulateShipment_eq, hfind]
    simp
  · simp only [simulateShipment_eq, hfind]
    have hmem := List.mem_of_find?_eq_some hfind
    unfold SIMULATION_LIBRARY at hmem
    simp only [List.mem_cons, List.not_mem_nil, or_false] at hmem
    rcases hmem with rfl | rfl | rfl | rfl | rfl | rfl | rfl | rfl <;> simp

/-- Every profile `simulateShipment` can return has a non-empty plan list. -/
theorem simulateShipment_plans_ne_nil (s : String) :
    (simulateShipment s).1.plans ≠ [] := by
  rcases simulateShipment_cases s with h | h | h | h | h | h | h | h | h <;>
    rw [h] <;> decide

/-! ## C4 — the structured `shipDate` field is a hardcoded constant -/

/-- C4: for every project name and optional quantity, the structured `shipDate`
field returned by `buildSimulationResponse` is the constant `"2025-11-30"`,
independent of the matched profile — in particular of the `"4CBTY2"` primary
own ship date `"2025-11-15"` of the primary plan of `"4CBTY2"`. -/
theorem C4_shipDate_constant (projectName : String) (quantity : Option Int) :
    (buildSimulationResponse projectName quantity).shipDate = "2025-11-30" ∧
    ((simulateShipment "4CBTY2").1.plans.head?.map SimulationPlan.shipDate
      = some "2025-11-15") :=
  ⟨rfl, by decide⟩

/-! ## C8 — the `"4CBTY2"` profile carries the later duplicate history/schedule -/

/-- C8: any input containing `"4CBTY2"` (after trim and uppercase) matches the
`"4CBTY2"` fixture, whose `history` and `schedule` come from the later
duplicate property assignments of the object literal (ids `H-3CB5-*` and
`S-3CB5-*`), not from the earlier, dead `H-4CBTY2-*` / `S-4CBTY2-*` blocks. -/
theorem C8_duplicate_props_last_wins (s : String)
    (h : containsSub (jsToUpper (jsTrim s)).data "4CBTY2".data = true) :
    (simulateShipment s).2 = "4CBTY2" ∧
    (simulateShipment s).1.history = some history4CBTY2Second ∧
    (simulateShipment s).1.schedule = some schedule4CBTY2Second ∧
    history4CBTY2Second.map SimilarCase.id = ["H-3CB5-01", "H-3CB5-02"] ∧
    schedule4CBTY2Second.map ScheduleBlock.id = ["S-3CB5-01", "S-3CB5-02", "S-3CB5-03"] ∧
    (history4CBTY2Second == history4CBTY2First) = false ∧
    (schedule4CBTY2Second == schedule4CBTY2First) = false := by
  have hsim : simulateShipment s = (profile4CBTY2, "4CBTY2") := by
    rw [simulateShipment_eq]
    unfold SIMULATION_LIBRARY
    rw [List.find?_cons_of_pos _ (by exact h)]
  rw [hsim]
  refine ⟨rfl, ?_, ?_, by decide, by decide, by decide, by decide⟩ <;> rfl

/-- Witness for C8 at the concrete input `"4cbty2 8台"` (lower case, so the
trim/uppercase normalization is exercised). -/
theorem C8_witness :
    (simulateShipment "4cbty2 8台").2 = "4CBTY2" ∧
    (simulateShipment "4cbty2 8台").1.history = some history4CBTY2Second := by
  have h := C8_duplicate_props_last_wins "4cbty2 8台" (by decide)
  exact ⟨h.1, h.2.1⟩

/-! ## C10 — schedule confirmation only touches the status field -/

/-- C10: the per-block confirm handler rewrites exactly the status of the block
with the given id to `確定`, preserving every other field of every block; the
confirm-all handler rewrites every status to `確定` preserving all other
fields; and the message-list update replaces only the schedule of the targeted
message, leaving its other fields and every other message untouched.  All three
are plain list maps; none of them mentions the extractor, matcher or builder,
and lengths are preserved. -/
theorem C10_confirm_frame (blocks : List ScheduleBlock) (blockId : String)
    (msgs : List Message) (messageId : String) (upd : List ScheduleBlock) :
    confirmBlock blocks blockId = blocks.map (fun b =>
      { id := b.id, timeFrame := b.timeFrame, focus := b.focus, owner := b.owner,
        status := if b.id = blockId then "確定" else b.status, note := b.note }) ∧
    confirmAll blocks = blocks.map (fun b =>
      { id := b.id, timeFrame := b.timeFrame, focus := b.focus, owner := b.owner,
        status := "確定", note := b.note }) ∧
    applyScheduleUpdate msgs messageId upd = msgs.map (fun m =>
      if m.id = messageId then
        { id := m.id, role := m.role, content := m.content, history := m.history,
          schedule := some upd, shipDate := m.shipDate }
      else m) ∧
    (confirmBlock blocks blockId).length = blocks.length ∧
    (confirmAll blocks).length = blocks.length ∧
    (applyScheduleUpdate msgs messageId upd).length = msgs.length := by
  refine ⟨?_, ?_, ?_, ?_, ?_, ?_⟩
  · unfold confirmBlock
    apply List.map_congr_left
    intro b _
    cases b
    split <;> rfl
  · unfold confirmAll
    apply List.map_congr_left
    intro b _
    cases b
    rfl
  · unfold applyScheduleUpdate
    apply List.map_congr_left
    intro m _
    cases m
    split <;> rfl
  · simp [confirmBlock]
  · simp [confirmAll]
  · simp [applyScheduleUpdate]
/-! ## C1 — end-to-end scenario 1 -/

/-- Counterexample to C1 as stated: on the scenario-1 input the extractor does
not return the bare key `"4CBTY2"`; boilerplate stripping removes only
`出荷シミュレーション`, leaving the quantity phrase in the name. -/
theorem C1_counterexample_projectName :
    (extractOrderInfo "案件名: 4CBTY2 8台で出荷シミュレーション").projectName
      = some "4CBTY2 8台で" ∧
    ("4CBTY2 8台で" == "4CBTY2") = false := by
  exact ⟨by decide, by decide⟩

/-- C1 (amended): on input `"案件名: 4CBTY2 8台で出荷シミュレーション"` the
extractor yields project name `"4CBTY2 8台で"` (which still contains the key)
and quantity 8; the matcher hits key `"4CBTY2"`; the difference line of the builder
(lines index 4) reports zero difference and the primary plan block (index 27)
carries ship date `"2025-11-15"`. -/
theorem C1_end_to_end :
    extractOrderInfo "案件名: 4CBTY2 8台で出荷シミュレーション"
      = { projectName := some "4CBTY2 8台で", quantity := some 8 } ∧
    (simulateShipment "4CBTY2 8台で").2 = "4CBTY2" ∧
    (narrativeLines "4CBTY2 8台で" (some 8))[4]? = some "数量差異: 標準ロットと同数です。" ∧
    ((simulateShipment "4CBTY2 8台で").1.plans.head?.map SimulationPlan.shipDate
      = some "2025-11-15") ∧
    (narrativeLines "4CBTY2 8台で" (some 8))[27]? = some "  📅 出荷日: 2025-11-15  /  LT: 5日" := by
  refine ⟨by decide, by decide, by decide, by decide, by decide⟩

/-! ## C5 — first-defined-key wins -/

/-- C5: if the normalized (trimmed, uppercased) input contains the `i`-th
fixture key as a substring and none of the earlier keys, `simulateShipment`
returns exactly the `i`-th profile with the `i`-th key as `matchedKey` — the
first key in declaration order of the table wins.  The second conjunct records
determinism, which holds definitionally for the pure function. -/
theorem C5_first_declared_key_wins (s : String) (i : Fin SIMULATION_LIBRARY.length)
    (hmatch : containsSub (jsToUpper (jsTrim s)).data (SIMULATION_LIBRARY.get i).1.data = true)
    (hfirst : ∀ j : Fin SIMULATION_LIBRARY.length, j < i →
      containsSub (jsToUpper (jsTrim s)).data (SIMULATION_LIBRARY.get j).1.data = false) :
    simulateShipment s = ((SIMULATION_LIBRARY.get i).2, (SIMULATION_LIBRARY.get i).1) ∧
    simulateShipment s = simulateShipment s := by
  refine ⟨?_, rfl⟩
  rw [simulateShipment_eq, find?_eq_get _ SIMULATION_LIBRARY i hmatch hfirst]

/-- Witness for C5: `"xx4cbt2yy"` contains key `"4CBT2"` (index 2) after
uppercasing but neither `"4CBTY2"` nor `"4CBTYK4"`. -/
theorem C5_witness :
    simulateShipment "xx4cbt2yy"
      = ((SIMULATION_LIBRARY.get ⟨2, by decide⟩).2, (SIMULATION_LIBRARY.get ⟨2, by decide⟩).1) :=
  (C5_first_declared_key_wins "xx4cbt2yy" ⟨2, by decide⟩ (by decide) (by decide)).1

/-! ## C6 — default fallback for unmatched names -/

/-- C6: when no fixture key occurs in the normalized input, `simulateShipment`
returns the default profile with sentinel key `"default"` (total, no failure);
and on scenario-4 input `"XYZ999 10台"` the extractor yields that name with
quantity 10, the matcher falls back to the default profile, and the difference
line of the builder reports `+5` against the default quantity 5. -/
theorem C6_default_fallback (s : String)
    (h : ∀ kv ∈ SIMULATION_LIBRARY, containsSub (jsToUpper (jsTrim s)).data kv.1.data = false) :
    simulateShipment s = (DEFAULT_SIMULATION, "default") ∧
    extractOrderInfo "XYZ999 10台" = { projectName := some "XYZ999 10台", quantity := some 10 } ∧
    (simulateShipment "XYZ999 10台").2 = "default" ∧
    (narrativeLines "XYZ999 10台" (some 10))[4]? = some "数量差異: +5台（標準 5台）" := by
  refine ⟨?_, by decide, by decide, by decide⟩
  rw [simulateShipment_eq]
  have hnone : SIMULATION_LIBRARY.find?
      (fun kv => containsSub (jsToUpper (jsTrim s)).data kv.1.data) = none := by
    rw [List.find?_eq_none]
    intro kv hkv
    simp [h kv hkv]
  rw [hnone]

/-- Witness for C6 at the scenario-4 input. -/
theorem C6_witness :
    simulateShipment "XYZ999 10台" = (DEFAULT_SIMULATION, "default") :=
  (C6_default_fallback "XYZ999 10台" (by decide)).1

/-! ## Extractor lemmas: a trimmed non-empty input always yields a name -/

/-- The head surviving `dropWhile` falsifies the predicate. -/
theorem dropWhile_head_false {α : Type} (p : α → Bool) (l : List α) :
    ∀ (c : α) (t : List α), l.dropWhile p = c :: t → p c = false := by
  induction l with
  | nil => intro c t h; simp at h
  | cons a l ih =>
    intro c t h
    rw [List.dropWhile_cons] at h
    by_cases hpa : p a = true
    · rw [if_pos hpa] at h
      exact ih c t h
    · rw [if_neg hpa] at h
      obtain ⟨rfl, -⟩ := List.cons.inj h
      simpa using hpa

/-- Lemma: `dropWhile` keeps a final element that falsifies the predicate. -/
theorem dropWhile_append_last {α : Type} (p : α → Bool) (c : α) (hc : p c = false)
    (xs : List α) : ∃ ys, (xs ++ [c]).dropWhile p = ys ++ [c] := by
  induction xs with
  | nil => exact ⟨[], by simp [List.dropWhile_cons, hc]⟩
  | cons a xs ih =>
    by_cases hpa : p a = true
    · obtain ⟨ys, hy⟩ := ih
      exact ⟨ys, by simp [List.dropWhile_cons, hpa, hy]⟩
    · exact ⟨a :: xs, by simp [List.dropWhile_cons, hpa]⟩

/-- A non-empty trim result starts with a non-whitespace character. -/
theorem jsTrimList_head (l : List Char) (h : jsTrimList l ≠ []) :
    ∃ c t, jsTrimList l = c :: t ∧ isJsWs c = false := by
  unfold jsTrimList at h ⊢
  rcases hd : l.dropWhile isJsWs with _ | ⟨c0, t0⟩
  · rw [hd] at h; simp at h
  · have hc0 : isJsWs c0 = false := dropWhile_head_false isJsWs l c0 t0 hd
    have hrev : (c0 :: t0).reverse = t0.reverse ++ [c0] := by simp
    rw [hrev]
    obtain ⟨ys, hy⟩ := dropWhile_append_last isJsWs c0 hc0 t0.reverse
    rw [hy]
    exact ⟨c0, ys.reverse, by simp, hc0⟩

/-- Trimming a list headed by a non-whitespace character is non-empty. -/
theorem jsTrimList_cons_ne_nil (c : Char) (t : List Char) (hc : isJsWs c = false) :
    jsTrimList (c :: t) ≠ [] := by
  unfold jsTrimList
  rw [List.dropWhile_cons, if_neg (by simp [hc])]
  have hrev : (c :: t).reverse = t.reverse ++ [c] := by simp
  rw [hrev]
  obtain ⟨ys, hy⟩ := dropWhile_append_last isJsWs c hc t.reverse
  rw [hy]
  simp

/-- Lemma: `splitLines` never returns the empty list of lines. -/
theorem splitLines_ne_nil (l : List Char) : splitLines l ≠ [] := by
  rw [splitLines.eq_def]
  split
  · simp
  · simp
  · simp
  · split <;> simp

/-- A list headed by a non-terminator character splits into a first line headed
by that character. -/
theorem splitLines_cons_of_ne (c : Char) (t : List Char) (hc1 : c ≠ '\r') (hc2 : c ≠ '\n') :
    ∃ h2 rest, splitLines (c :: t) = (c :: h2) :: rest := by
  rcases hst : splitLines t with _ | ⟨h2, rest⟩
  · exact absurd hst (splitLines_ne_nil t)
  · refine ⟨h2, rest, ?_⟩
    rw [splitLines.eq_def]
    split
    · simp_all
    · simp_all
    · simp_all
    · rename_i c2 t2 heq
      obtain ⟨rfl, rfl⟩ := List.cons.inj heq
      rw [hst]

/-- When the raw input starts with a non-whitespace character, the
first-non-blank-line fallback succeeds with a non-empty line. -/
theorem firstNonBlankLine_of_head (raw : String) (c0 : Char) (t : List Char)
    (hdata : raw.data = c0 :: t) (hc0 : isJsWs c0 = false) :
    ∃ p, firstNonBlankLine raw = some p ∧ p ≠ [] := by
  have hw1 : isJsWs '\r' = true := by decide
  have hw2 : isJsWs '\n' = true := by decide
  have hc1 : c0 ≠ '\r' := by intro he; rw [he, hw1] at hc0; cases hc0
  have hc2 : c0 ≠ '\n' := by intro he; rw [he, hw2] at hc0; cases hc0
  obtain ⟨h2, rest, hsplit⟩ := splitLines_cons_of_ne c0 t hc1 hc2
  have hne := jsTrimList_cons_ne_nil c0 h2 hc0
  refine ⟨jsTrimList (c0 :: h2), ?_, hne⟩
  unfold firstNonBlankLine
  rw [hdata, hsplit, List.map_cons]
  rw [List.find?_cons_of_pos]
  simp [hne]

/-- The sanitizing step keeps a non-empty candidate non-empty. -/
theorem sanitize_ne_nil (p : List Char) (hp : p ≠ []) :
    (if !(jsTrimList (stripBoilerplate p)).isEmpty then jsTrimList (stripBoilerplate p) else p)
      ≠ [] := by
  split
  · rename_i h
    intro habs
    rw [habs] at h
    simp at h
  · exact hp

/-- When the raw input starts with a non-whitespace character,
`extractProjectName` returns a non-empty candidate. -/
theorem extractProjectName_of_head (raw : String) (c0 : Char) (t : List Char)
    (hdata : raw.data = c0 :: t) (hc0 : isJsWs c0 = false) :
    ∃ p, extractProjectName raw = some p ∧ p ≠ [] := by
  obtain ⟨p, hp, hpne⟩ := firstNonBlankLine_of_head raw c0 t hdata hc0
  unfold extractProjectName
  rcases hexp : findExplicit raw.data with _ | cap
  · simp only [hexp, hp]
    exact ⟨_, rfl, sanitize_ne_nil p hpne⟩
  · simp only [hexp]
    by_cases hce : (jsTrimList cap).isEmpty = true
    · simp only [hce, if_true, hp]
      exact ⟨_, rfl, sanitize_ne_nil p hpne⟩
    · simp only [hce, if_false]
      refine ⟨_, rfl, sanitize_ne_nil (jsTrimList cap) ?_⟩
      intro habs
      rw [habs] at hce
      simp at hce

/-- When the raw input starts with a non-whitespace character, the extracted
project name is never null. -/
theorem extractOrderInfo_projectName_ne_none (raw : String) (c0 : Char) (t : List Char)
    (hdata : raw.data = c0 :: t) (hc0 : isJsWs c0 = false) :
    (extractOrderInfo raw).projectName ≠ none := by
  obtain ⟨p, hp, hpne⟩ := extractProjectName_of_head raw c0 t hdata hc0
  have : (extractOrderInfo raw).projectName =
      match extractProjectName raw with
      | some p => if p.isEmpty then none else some ⟨p⟩
      | none => none := rfl
  rw [this, hp]
  have hempty : p.isEmpty = false := by
    cases p
    · exact absurd rfl hpne
    · rfl
  simp [hempty]

/-! ## C3 — unparseable input and the guidance branch -/

/-- Counterexample to C3 as stated: for the blank input (where the extractor
indeed returns a null project name) the submission handler appends nothing at
all — in particular not the guidance message — because `handleSend` returns
before calling the extractor when the trimmed content is empty. -/
theorem C3_counterexample_blank :
    (extractOrderInfo "").projectName = none ∧
    handleSend false "" "1" [] = [] := by
  exact ⟨by decide, by decide⟩

/-- C3 (amended): whenever the extractor finds no project name in the trimmed
content — which happens exactly for all-whitespace inputs — the submission
handler ignores the turn, leaving the message list unchanged: no user message,
no guidance message, and no profile lookup.  (For any non-blank content the
first-non-blank-line fallback always yields a name, so the guidance branch of
`handleSend` is unreachable.) -/
theorem C3_no_lookup_on_unparseable (input uid : String) (msgs : List Message)
    (h : (extractOrderInfo (jsTrim input)).projectName = none) :
    handleSend false input uid msgs = msgs := by
  unfold handleSend
  by_cases hc : jsTrim input = ""
  · simp [hc]
  · exfalso
    have hdne : (jsTrim input).data ≠ [] := by
      intro hnil
      exact hc (String.ext (by rw [hnil]))
    obtain ⟨c0, t, hcons, hws⟩ := jsTrimList_head input.data (by exact hdne)
    exact absurd h (extractOrderInfo_projectName_ne_none (jsTrim input) c0 t (by exact hcons) hws)

/-- Witness for C3 at the whitespace-only input `"   "`. -/
theorem C3_witness : handleSend false "   " "7" [] = [] :=
  C3_no_lookup_on_unparseable "   " "7" [] (by decide)
/-! ## C2 — the difference line reports the exact signed delta -/

/-- String concatenation is associative. -/
theorem string_append_assoc (a b c : String) : a ++ b ++ c = a ++ (b ++ c) :=
  String.ext (by simp only [data_append, List.append_assoc])

/-- Every difference line starts with the `数量差異: ` prefix. -/
theorem diffLineFor_head (d : Nat) (q : Option Int) :
    ∃ t : String, diffLineFor d q = "数量差異: " ++ t := by
  unfold diffLineFor
  by_cases h : jsTruthy q = true
  · simp only [h, if_true]
    by_cases h2 : (q.getD 0 - (d : Int)) = 0
    · rw [if_pos h2]
      exact ⟨"標準ロットと同数です。", rfl⟩
    · rw [if_neg h2]
      exact ⟨(if q.getD 0 - (d : Int) > 0 then "+" else "") ++ toString (q.getD 0 - (d : Int))
        ++ "台（標準 " ++ formatNumber (d : Int) ++ "台）", rfl⟩
  · simp only [Bool.not_eq_true] at h
    simp only [h, Bool.false_eq_true, if_false]
    exact ⟨"標準ロット " ++ formatNumber (d : Int) ++ "台を基準に計算しています。", rfl⟩

/-- With a truthy requested quantity `d + k`, the difference line reports the
delta `k`: `同数` when `k = 0`, otherwise the signed value of `k`. -/
theorem diffLineFor_delta (d : Nat) (k : Int) (h : (d : Int) + k ≠ 0) :
    diffLineFor d (some ((d : Int) + k)) =
      if k = 0 then "数量差異: 標準ロットと同数です。"
      else "数量差異: " ++ (if k > 0 then "+" else "") ++ toString k
        ++ "台（標準 " ++ formatNumber (d : Int) ++ "台）" := by
  unfold diffLineFor jsTruthy
  have h1 : ((d : Int) + k != 0) = true := by simpa using h
  simp only [h1, if_true]
  have h2 : (some ((d : Int) + k)).getD 0 - (d : Int) = k := by
    simp only [Option.getD_some]
    omega
  rw [h2]

/-- Equation for `narrativeLines` with its `let` bindings reduced. -/
theorem narrativeLines_eq (pn : String) (q : Option Int) :
    narrativeLines pn q
      = narrativeLinesCore pn q (simulateShipment pn).1 (simulateShipment pn).2 := rfl

/-- Lemma: element 4 of the `lines` array of the builder is always the difference line. -/
theorem narrativeLinesCore_getElem4 (pn : String) (q : Option Int)
    (prof : SimulationProfile) (key : String) (hp : prof.plans ≠ []) :
    (narrativeLinesCore pn q prof key)[4]? = some (diffLineFor prof.defaultQuantity q) := by
  unfold narrativeLinesCore
  rcases hpl : prof.plans with _ | ⟨p0, alts⟩
  · exact absurd hpl hp
  · simp only [hpl]
    rfl

/-- Counterexample to C2 as stated: for the default profile (default quantity
5) and `k = -5` the requested quantity `5 + (-5) = 0` is falsy in JavaScript,
so the builder emits the no-quantity baseline line instead of a `-5` delta. -/
theorem C2_counterexample_zero_quantity :
    ((simulateShipment "XYZ999").1.defaultQuantity : Int) + (-5) = 0 ∧
    (narrativeLines "XYZ999"
        (some (((simulateShipment "XYZ999").1.defaultQuantity : Int) + (-5))))[4]?
      = some "数量差異: 標準ロット 5台を基準に計算しています。" ∧
    ("数量差異: 標準ロット 5台を基準に計算しています。" == "数量差異: -5台（標準 5台）") = false := by
  exact ⟨by decide, by decide, by decide⟩

/-- C2 (amended): for every project name and every integer `k` with
`defaultQuantity + k ≠ 0` (a requested quantity of `0` is falsy and treated as
"no quantity given"), the difference line of the builder — element 4 of its `lines`
array — reports "same as the standard lot" when `k = 0` and the exact signed
delta `k` otherwise.  Quantity equal to the default is the `k = 0` instance. -/
theorem C2_quantity_delta (projectName : String) (k : Int)
    (h : ((simulateShipment projectName).1.defaultQuantity : Int) + k ≠ 0) :
    (narrativeLines projectName
        (some (((simulateShipment projectName).1.defaultQuantity : Int) + k)))[4]?
      = some (if k = 0 then "数量差異: 標準ロットと同数です。"
        else "数量差異: " ++ (if k > 0 then "+" else "") ++ toString k
          ++ "台（標準 " ++ formatNumber ((simulateShipment projectName).1.defaultQuantity : Int)
          ++ "台）") := by
  rw [narrativeLines_eq,
    narrativeLinesCore_getElem4 _ _ _ _ (simulateShipment_plans_ne_nil projectName),
    diffLineFor_delta _ _ h]

/-- Witness for C2 at project `"4CBTY2"` (default quantity 8) and `k = 3`. -/
theorem C2_witness :
    (((simulateShipment "4CBTY2").1.defaultQuantity : Int) + 3 ≠ 0) ∧
    (narrativeLines "4CBTY2"
        (some (((simulateShipment "4CBTY2").1.defaultQuantity : Int) + 3)))[4]?
      = some "数量差異: +3台（標準 8台）" := by
  refine ⟨by decide, ?_⟩
  rw [C2_quantity_delta "4CBTY2" 3 (by decide)]
  decide

/-! ## C9 — plan section: one primary entry, then 1-indexed alternatives -/

/-- The narrative line marking the primary ("shortest") plan. -/
def isPrimaryLine (l : String) : Bool := startsWithL "◎ 最短案".data l.data

/-- The narrative lines marking alternative plans. -/
def isAltLine (l : String) : Bool := startsWithL "▲ 代替案".data l.data

/-- The header segment contains exactly one primary-plan marker line. -/
theorem filter_headerLines_primary (pn : String) (q : Option Int)
    (prof : SimulationProfile) (key : String) (p0 : SimulationPlan) :
    (headerLines pn q prof key p0).filter isPrimaryLine = ["◎ 最短案  |  " ++ p0.label] := by
  obtain ⟨t, ht⟩ := diffLineFor_head prof.defaultQuantity q
  simp only [headerLines]
  rw [ht]
  rfl

/-- The header segment contains no alternative-plan marker line. -/
theorem filter_headerLines_alt (pn : String) (q : Option Int)
    (prof : SimulationProfile) (key : String) (p0 : SimulationPlan) :
    (headerLines pn q prof key p0).filter isAltLine = [] := by
  obtain ⟨t, ht⟩ := diffLineFor_head prof.defaultQuantity q
  simp only [headerLines]
  rw [ht]
  rfl

/-- The `forEach` blocks contribute exactly their header lines, numbered
`index + 1` in list order, to the alternative-marker filter. -/
theorem filter_altBlocks_alt (alts : List SimulationPlan) : ∀ n : Nat,
    (((List.enumFrom n alts).map fun ip => altPlanBlock ip.1 ip.2).flatten).filter isAltLine
      = (List.enumFrom n alts).map
          (fun ip => "▲ 代替案" ++ toString (ip.1 + 1) ++ "  |  " ++ ip.2.label) := by
  induction alts with
  | nil => intro n; rfl
  | cons p alts ih =>
    intro n
    simp only [List.enumFrom_cons, List.map_cons, List.flatten_cons, List.filter_append]
    rw [ih (n + 1)]
    rfl

/-- The `forEach` blocks contain no primary-plan marker line. -/
theorem filter_altBlocks_primary (alts : List SimulationPlan) : ∀ n : Nat,
    (((List.enumFrom n alts).map fun ip => altPlanBlock ip.1 ip.2).flatten).filter isPrimaryLine
      = [] := by
  induction alts with
  | nil => intro n; rfl
  | cons p alts ih =>
    intro n
    simp only [List.enumFrom_cons, List.map_cons, List.flatten_cons, List.filter_append]
    rw [ih (n + 1)]
    rfl

/-- C9: every fixture profile and the default profile have a non-empty plan
list, and for every project name and quantity the `lines` array of the builder
contains exactly one primary-plan entry — the first plan — followed by one
`代替案N` entry per remaining plan, numbered from 1 in the original order of
the plan list. -/
theorem C9_plan_section (projectName : String) (quantity : Option Int) :
    (SIMULATION_LIBRARY.all fun kv => !kv.2.plans.isEmpty) = true ∧
    DEFAULT_SIMULATION.plans.isEmpty = false ∧
    ∃ p0 alts, (simulateShipment projectName).1.plans = p0 :: alts ∧
      (narrativeLines projectName quantity).filter isPrimaryLine
        = ["◎ 最短案  |  " ++ p0.label] ∧
      (narrativeLines projectName quantity).filter isAltLine
        = alts.enum.map
            (fun ip => "▲ 代替案" ++ toString (ip.1 + 1) ++ "  |  " ++ ip.2.label) := by
  refine ⟨by decide, by decide, ?_⟩
  rcases hpl : (simulateShipment projectName).1.plans with _ | ⟨p0, alts⟩
  · exact absurd hpl (simulateShipment_plans_ne_nil projectName)
  · have hcore : narrativeLines projectName quantity
        = headerLines projectName quantity (simulateShipment projectName).1
            (simulateShipment projectName).2 p0
          ++ ((alts.enum.map fun ip => altPlanBlock ip.1 ip.2).flatten) ++ footerLines := by
      rw [narrativeLines_eq]
      unfold narrativeLinesCore
      simp only [hpl]
    have henum : alts.enum = List.enumFrom 0 alts := rfl
    refine ⟨p0, alts, rfl, ?_, ?_⟩
    · rw [hcore, List.filter_append, List.filter_append, filter_headerLines_primary,
        henum, filter_altBlocks_primary alts 0]
      rfl
    · rw [hcore, List.filter_append, List.filter_append, filter_headerLines_alt,
        henum, filter_altBlocks_alt alts 0,
        show List.filter isAltLine footerLines = [] from rfl]
      simp
/-! ## C7 — quantity extraction -/

/-- No JavaScript whitespace character is an ASCII digit. -/
theorem isJsWs_not_digit (c : Char) (h : isJsWs c = true) : isDigit c = false := by
  have hm : c ∈ jsWsChars := by
    have := List.elem_iff.mp h
    exact this
  fin_cases hm <;> decide

/-- A unit token starts with a character that is neither whitespace nor a
digit. -/
theorem unitAt_head (l : List Char) (h : unitAt l = true) :
    ∃ c t, l = c :: t ∧ isJsWs c = false ∧ isDigit c = false := by
  unfold unitAt at h
  split at h
  · exact ⟨'台', _, rfl, by decide, by decide⟩
  · exact ⟨'個', _, rfl, by decide, by decide⟩
  · exact ⟨'本', _, rfl, by decide, by decide⟩
  · exact ⟨'セ', _, rfl, by decide, by decide⟩
  · rename_i a e t rest
    simp only [Bool.and_eq_true, Bool.or_eq_true, beq_iff_eq] at h
    rcases h.1.1 with rfl | rfl
    · exact ⟨'s', _, rfl, by decide, by decide⟩
    · exact ⟨'S', _, rfl, by decide, by decide⟩
  · cases h

/-- Lemma: `takeWhile` passes over a leading segment of satisfying elements. -/
theorem takeWhile_append_all {α : Type} (p : α → Bool) (l₁ l₂ : List α)
    (h : ∀ c ∈ l₁, p c = true) :
    (l₁ ++ l₂).takeWhile p = l₁ ++ l₂.takeWhile p := by
  induction l₁ with
  | nil => simp
  | cons a l ih =>
    have ha := h a (List.mem_cons_self a l)
    simp only [List.cons_append, List.takeWhile_cons, ha, if_true]
    rw [ih fun c hc => h c (List.mem_cons_of_mem a hc)]

/-- Lemma: `dropWhile` skips a leading segment of satisfying elements. -/
theorem dropWhile_append_all {α : Type} (p : α → Bool) (l₁ l₂ : List α)
    (h : ∀ c ∈ l₁, p c = true) :
    (l₁ ++ l₂).dropWhile p = l₂.dropWhile p := by
  induction l₁ with
  | nil => simp
  | cons a l ih =>
    have ha := h a (List.mem_cons_self a l)
    simp only [List.cons_append, List.dropWhile_cons, ha, if_true]
    exact ih fun c hc => h c (List.mem_cons_of_mem a hc)

/-- The anchored quantity matcher succeeds with capture `ds` exactly when the
input decomposes as `ds ++ whitespace ++ unit-token` with `ds` a non-empty
digit group of at most four digits — the spec-level reading of
`/(\d{1,4})\s*(台|個|本|セット|set)/i` at a fixed position. -/
theorem quantAt_eq_some_iff (l ds : List Char) :
    quantAt l = some ds ↔ QuantPatternAt l ds := by
  constructor
  · intro h
    unfold quantAt at h
    dsimp only [] at h
    split at h
    · cases h
    · rename_i hne
      split at h
      · rename_i hunit
        obtain rfl : (l.takeWhile isDigit).take 4 = ds := by
          injection h
        have hpre : (l.takeWhile isDigit).take 4 <+: l :=
          ( List.take_prefix 4 (l.takeWhile isDigit)).trans ( List.takeWhile_prefix isDigit)
        obtain ⟨tail, htail⟩ := hpre
        have hdrop : l.drop ((l.takeWhile isDigit).take 4).length = tail := by
          nth_rewrite 2 [← htail]
          rw [List.drop_left]
        refine ⟨tail.takeWhile isJsWs, tail.dropWhile isJsWs, ?_, ?_, ?_, ?_, ?_, ?_⟩
        · rw [List.append_assoc, List.takeWhile_append_dropWhile, htail]
        · intro habs
          rw [habs] at hne
          simp at hne
        · exact (List.length_take_le 4 _)
        · intro c hc
          exact List.mem_takeWhile_imp (List.take_subset 4 _ hc)
        · intro c hc
          exact List.mem_takeWhile_imp hc
        · rw [hdrop] at hunit
          exact hunit
      · cases h
  · rintro ⟨w, rest, rfl, hne, hlen, hdig, hws, hunit⟩
    unfold quantAt
    dsimp only []
    have hwr : (w ++ rest).takeWhile isDigit = [] := by
      cases w with
      | nil =>
        obtain ⟨c, t, rfl, -, hd⟩ := unitAt_head rest hunit
        simp [List.takeWhile_cons, hd]
      | cons a w2 =>
        have ha := hws a (List.mem_cons_self a w2)
        simp [List.takeWhile_cons, isJsWs_not_digit a ha]
    have h1 : (ds ++ w ++ rest).takeWhile isDigit = ds := by
      rw [List.append_assoc, takeWhile_append_all isDigit ds _ hdig, hwr, List.append_nil]
    have h2 : ds.take 4 = ds := List.take_of_length_le hlen
    have h3 : (ds ++ w ++ rest).drop ds.length = w ++ rest := by
      rw [List.append_assoc, List.drop_left]
    have h4 : (w ++ rest).dropWhile isJsWs = rest := by
      rw [dropWhile_append_all isJsWs w rest hws]
      obtain ⟨c, t, rfl, hw, -⟩ := unitAt_head rest hunit
      simp [List.dropWhile_cons, hw]
    rw [h1, h2, h3, h4]
    have hempty : ds.isEmpty = false := by
      cases ds
      · exact absurd rfl hne
      · rfl
    rw [if_neg (by simp [hempty]), if_pos hunit]

/-- The leftmost scan fails exactly when the anchored matcher fails at every
position. -/
theorem findQuant_eq_none_iff (l : List Char) :
    findQuant l = none ↔ ∀ i, quantAt (l.drop i) = none := by
  induction l with
  | nil =>
    constructor
    · intro _ i
      cases i <;> rfl
    · intro _; rfl
  | cons c t ih =>
    constructor
    · intro h i
      unfold findQuant at h
      rcases hq : quantAt (c :: t) with _ | ds
      · rw [hq] at h
        cases i with
        | zero => exact hq
        | succ j => exact ih.mp h j
      · rw [hq] at h
        cases h
    · intro h
      unfold findQuant
      have h0 := h 0
      rw [show (c :: t).drop 0 = c :: t from rfl] at h0
      rw [h0]
      exact ih.mpr fun i => h (i + 1)

/-- A successful leftmost scan is the anchored match at some position before
which every position fails. -/
theorem findQuant_eq_some (l : List Char) (ds : List Char) (h : findQuant l = some ds) :
    ∃ i, quantAt (l.drop i) = some ds ∧ ∀ j < i, quantAt (l.drop j) = none := by
  induction l with
  | nil => cases h
  | cons c t ih =>
    unfold findQuant at h
    rcases hq : quantAt (c :: t) with _ | ds2
    · rw [hq] at h
      obtain ⟨i, hi, hfirst⟩ := ih h
      refine ⟨i + 1, hi, ?_⟩
      intro j hj
      cases j with
      | zero => exact hq
      | succ j2 => exact hfirst j2 (Nat.lt_of_succ_lt_succ hj)
    · rw [hq] at h
      injection h with h
      subst h
      exact ⟨0, hq, fun j hj => absurd hj (Nat.not_lt_zero j)⟩

/-- Counterexample to C7 as stated: in `"8 台"` no digit group is
*immediately* followed by a unit token (a space intervenes), yet the extractor
returns quantity 8, because the regex allows `\s*` between the digits and the
unit. -/
theorem C7_counterexample_whitespace :
    immediateQuantExists "8 台".data = false ∧
    (extractOrderInfo "8 台").quantity = some 8 := by
  exact ⟨by decide, by decide⟩

/-- C7 (amended): the extracted quantity is `none` exactly when no position of
the input matches `digits(1–4) ++ whitespace* ++ unit-token`, and when it is
`some n`, `n` is the integer parsed from the digit capture of the leftmost such
match. -/
theorem C7_quantity_pattern (raw : String) :
    ((extractOrderInfo raw).quantity = none ↔
      ∀ i, ¬ ∃ ds, QuantPatternAt (raw.data.drop i) ds) ∧
    (∀ n, (extractOrderInfo raw).quantity = some n →
      ∃ i ds, QuantPatternAt (raw.data.drop i) ds ∧ n = digitsToInt ds ∧
        ∀ j < i, ¬ ∃ ds2, QuantPatternAt (raw.data.drop j) ds2) := by
  have hq : (extractOrderInfo raw).quantity = (findQuant raw.data).map digitsToInt := rfl
  constructor
  · rw [hq]
    constructor
    · rintro h i ⟨ds, hds⟩
      have hsome := (quantAt_eq_some_iff _ ds).mpr hds
      have hnone : findQuant raw.data = none := by
        rcases hfq : findQuant raw.data with _ | ds2
        · rfl
        · rw [hfq] at h
          cases h
      rw [(findQuant_eq_none_iff _).mp hnone i] at hsome
      cases hsome
    · intro h
      rcases hfq : findQuant raw.data with _ | ds
      · rfl
      · obtain ⟨i, hi, -⟩ := findQuant_eq_some _ _ hfq
        exact absurd ⟨ds, (quantAt_eq_some_iff _ _).mp hi⟩ (h i)
  · intro n hn
    rw [hq] at hn
    rcases hfq : findQuant raw.data with _ | ds
    · rw [hfq] at hn
      cases hn
    · rw [hfq] at hn
      obtain ⟨i, hi, hfirst⟩ := findQuant_eq_some _ _ hfq
      refine ⟨i, ds, (quantAt_eq_some_iff _ _).mp hi, ?_, ?_⟩
      · injection hn with hn
        exact hn.symm
      · rintro j hj ⟨ds2, hds2⟩
        have := (quantAt_eq_some_iff _ ds2).mpr hds2
        rw [hfirst j hj] at this
        cases this

/-- Witness for C7 at the input `"3セット"`: quantity 3 is parsed from the
leftmost (position 0) match of the pattern. -/
theorem C7_witness :
    ∃ i ds, QuantPatternAt ("3セット".data.drop i) ds ∧ (3 : Int) = digitsToInt ds ∧
      ∀ j < i, ¬ ∃ ds2, QuantPatternAt ("3セット".data.drop j) ds2 :=
  (C7_quantity_pattern "3セット").2 3 (by decide)
